import Mathlib

/-!
Shallow embedding of `src/atom.py` (`FinalProfitableStrategy`), the
trend-filtered position controller of the OPTIMIZED-ALGO-TRADING
repository.  Prices, indicator values and portfolio values are modelled
as rationals; Python `int()` truncation is modelled explicitly; the
`ZeroDivisionError` raised by a division by a zero close is modelled by
`Except.error`.
-/

namespace Atom

/-- Strategy parameters, mirroring the `params` dict of
`FinalProfitableStrategy` (src/atom.py lines 19-28). -/
structure Params where
  fast_ema : Nat
  slow_ema : Nat
  position_pct : ℚ
  atr_period : Nat
  stop_atr_multiplier : ℚ

/-- The default parameter values from the source:
fast_ema=50, slow_ema=200, position_pct=0.95, atr_period=14,
stop_atr_multiplier=8.0. -/
def defaultParams : Params :=
  { fast_ema := 50
    slow_ema := 200
    position_pct := 95 / 100
    atr_period := 14
    stop_atr_multiplier := 8 }

/-- The controller-visible mutable state: the truthiness of
`self.position` (maintained by the broker: nonzero after a completed
buy, zero after the completed sell that closes the position), and the
fields `entry_price`, `stop_price`, `trade_count` that the strategy
itself initialises in `__init__` (src/atom.py lines 35-37).
`stop_price = none` models Python `None`. -/
structure StrategyState where
  position : Bool
  entry_price : Option ℚ
  stop_price : Option ℚ
  trade_count : Nat
  deriving DecidableEq, Repr

/-- The initial state of a run: flat, no entry or stop price recorded,
zero trades. -/
def initState : StrategyState :=
  { position := false, entry_price := none, stop_price := none, trade_count := 0 }

/-- The per-bar inputs read by `next`: the fast and slow EMA at the
current bar (index `[0]`) and at the previous bar (index `[-1]`), the
ATR at the current bar, the close price, and the broker portfolio
value. -/
structure BarInputs where
  fast0 : ℚ
  fast1 : ℚ
  slow0 : ℚ
  slow1 : ℚ
  atr0 : ℚ
  close : ℚ
  portfolio_value : ℚ
  deriving DecidableEq, Repr

/-- Exit reasons, distinguished in the source only by the printed
message: trend reversal (line 58) versus stop loss (line 64). -/
inductive ExitReason where
  | trendReversal
  | stopLoss
  deriving DecidableEq, Repr

/-- The per-bar decision emitted to the broker: `buy(size=size)`
(line 75) or `close()` (lines 57, 63); `none` models a bar on which no
order is submitted. -/
inductive Decision where
  | enterLong (size : ℤ)
  | exitPosition (reason : ExitReason)
  deriving DecidableEq, Repr

/-- Python `int()` applied to a real number: truncation toward zero. -/
def pyInt (q : ℚ) : ℤ :=
  if 0 ≤ q then ⌊q⌋ else ⌈q⌉

/-- The Python truthiness test `if self.stop_price and
self.data.close[0] < self.stop_price` (src/atom.py line 62): `None`
and `0.0` are falsy, so the comparison runs only for a set, nonzero
stop price. -/
def stopHit (stop : Option ℚ) (close : ℚ) : Bool :=
  match stop with
  | none => false
  | some s => if s = 0 then false else decide (close < s)

/-- Faithful translation of `FinalProfitableStrategy.next`
(src/atom.py lines 53-77).  Returns the updated strategy fields and
the order submitted this bar, or `Except.error` for the
`ZeroDivisionError` Python raises when the size computation divides by
a zero close.  Note that on entry the source assigns `self.stop_price`
immediately (line 76), inside `next`, before any fill is reported. -/
def next (p : Params) (st : StrategyState) (b : BarInputs) :
    Except Unit (StrategyState × Option Decision) :=
  if st.position then
    if b.fast0 < b.slow0 then
      Except.ok (st, some (Decision.exitPosition ExitReason.trendReversal))
    else if stopHit st.stop_price b.close then
      Except.ok (st, some (Decision.exitPosition ExitReason.stopLoss))
    else
      Except.ok (st, none)
  else
    if b.fast0 > b.slow0 ∧ b.fast1 ≤ b.slow1 then
      if b.close = 0 then
        Except.error ()
      else
        let size := pyInt (b.portfolio_value * p.position_pct / b.close)
        if 1 ≤ size then
          Except.ok
            ({ st with stop_price := some (b.close - b.atr0 * p.stop_atr_multiplier) },
             some (Decision.enterLong size))
        else
          Except.ok (st, none)
    else
      Except.ok (st, none)

/-- An order fill report from the broker: its side, whether its status
is `Completed`, and the executed price. -/
structure Order where
  isbuy : Bool
  completed : Bool
  executed_price : ℚ
  deriving DecidableEq, Repr

/-- Faithful translation of `FinalProfitableStrategy.notify_order`
(src/atom.py lines 39-45): on a completed buy, record the executed
price and bump the trade count; on a completed sell, clear
`entry_price` (and nothing else); otherwise do nothing. -/
def notify_order (st : StrategyState) (o : Order) : StrategyState :=
  if o.completed then
    if o.isbuy then
      { st with entry_price := some o.executed_price, trade_count := st.trade_count + 1 }
    else
      { st with entry_price := none }
  else
    st

/-- Modelled from the spec: the execution collaborator (the backtrader
broker, which is not among the sources of this repository) maintains
`self.position`, which becomes truthy once a buy order completes and
falsy once the closing sell completes; a rejected order leaves it
unchanged.  `applyFill` combines that broker effect with the
`notify_order` callback of the strategy. -/
def applyFill (st : StrategyState) (o : Order) : StrategyState :=
  let st' := notify_order st o
  if o.completed then
    if o.isbuy then { st' with position := true } else { st' with position := false }
  else
    st'

/-- The indicator snapshot as seen through the warm-up guard: each
series is `none` until its window has been filled. -/
structure Snapshot where
  fast0 : Option ℚ
  fast1 : Option ℚ
  slow0 : Option ℚ
  slow1 : Option ℚ
  atr0 : Option ℚ
  deriving DecidableEq, Repr

/-- Modelled from the spec: the backtesting framework (not among the
sources of this repository) calls `prenext` — a default no-op, since
`FinalProfitableStrategy` does not override it — while any indicator
is still inside its warm-up window, and calls `next` only once every
indicator value is defined. -/
def onBar (p : Params) (st : StrategyState) (snap : Snapshot) (close pv : ℚ) :
    Except Unit (StrategyState × Option Decision) :=
  match snap.fast0, snap.fast1, snap.slow0, snap.slow1, snap.atr0 with
  | some f0, some f1, some s0, some s1, some a0 =>
      next p st
        { fast0 := f0, fast1 := f1, slow0 := s0, slow1 := s1, atr0 := a0,
          close := close, portfolio_value := pv }
  | _, _, _, _, _ => Except.ok (st, none)

/-- A golden-cross bar used as witness input for claim C1. -/
def c1Bar : BarInputs :=
  { fast0 := 10, fast1 := 9, slow0 := 9, slow1 := 9, atr0 := 2, close := 100,
    portfolio_value := 100000 }

/-- An open position with stop price 84, used as witness input for
claim C2. -/
def c2St : StrategyState :=
  { position := true, entry_price := some 100, stop_price := some 84, trade_count := 1 }

/-- A bar on which both the trend-reversal and the stop-loss condition
hold (fast 8 < slow 9 and close 80 < stop 84), for claim C2. -/
def c2Bar : BarInputs :=
  { fast0 := 8, fast1 := 9, slow0 := 9, slow1 := 9, atr0 := 2, close := 80,
    portfolio_value := 100000 }

/-- A golden-cross bar for claim C3: close 100, ATR 2,
portfolio 100000. -/
def c3Bar : BarInputs :=
  { fast0 := 10, fast1 := 9, slow0 := 9, slow1 := 9, atr0 := 2, close := 100,
    portfolio_value := 100000 }

/-- The state right after the entry decision on `c3Bar`: only
`stop_price` differs from `initState` (100 - 2 * 8 = 84). -/
def c3Mid : StrategyState := { initState with stop_price := some 84 }

/-- A buy order whose fill failed (status not `Completed`), for
claim C3. -/
def c3Rejected : Order := { isbuy := true, completed := false, executed_price := 100 }

/-- An open position with all fields set, used for claim C4. -/
def c4St : StrategyState :=
  { position := true, entry_price := some 100, stop_price := some 84, trade_count := 1 }

/-- A completed sell (exit) fill at price 90, for claim C4. -/
def c4Sell : Order := { isbuy := false, completed := true, executed_price := 90 }

/-- The entry bar of the C5 scenario of the spec: close 100, ATR 2. -/
def c5EntryBar : BarInputs :=
  { fast0 := 10, fast1 := 9, slow0 := 9, slow1 := 9, atr0 := 2, close := 100,
    portfolio_value := 100000 }

/-- The open position after the C5 entry: stop price 84. -/
def c5OpenSt : StrategyState :=
  { position := true, entry_price := some 100, stop_price := some 84, trade_count := 1 }

/-- The later C5 bar: no trend reversal, close 83.99 below the stop
of 84. -/
def c5StopBar : BarInputs :=
  { fast0 := 10, fast1 := 10, slow0 := 9, slow1 := 9, atr0 := 2, close := 8399/100,
    portfolio_value := 100000 }

/-- The C6 bar of the spec: close 123.45, portfolio 100000, so the
size computation yields floor(100000 * 0.95 / 123.45) = 769. -/
def c6Bar : BarInputs :=
  { fast0 := 10, fast1 := 9, slow0 := 9, slow1 := 9, atr0 := 2, close := 12345/100,
    portfolio_value := 100000 }

/-- A golden-cross bar whose close is so high that the computed size
floors to 0, for claim C7. -/
def c7Bar : BarInputs :=
  { fast0 := 10, fast1 := 9, slow0 := 9, slow1 := 9, atr0 := 2, close := 1000000,
    portfolio_value := 100000 }

/-- An open position with stop price 50, for claim C8. -/
def c8St : StrategyState :=
  { position := true, entry_price := some 100, stop_price := some 50, trade_count := 1 }

/-- A malformed bar with a negative close (-1), no trend reversal,
while the stop price 50 is set, for claim C8. -/
def c8Bar : BarInputs :=
  { fast0 := 10, fast1 := 10, slow0 := 5, slow1 := 5, atr0 := 1, close := -1,
    portfolio_value := 100000 }

/-- A malformed golden-cross bar with close = 0, on which the Python
size computation raises `ZeroDivisionError`, for claim C8. -/
def c8ZeroBar : BarInputs :=
  { fast0 := 10, fast1 := 9, slow0 := 9, slow1 := 9, atr0 := 2, close := 0,
    portfolio_value := 100000 }

/-- A snapshot whose ATR is still inside its warm-up window, for
claim C9. -/
def c9Snap : Snapshot :=
  { fast0 := some 10, fast1 := some 9, slow0 := some 9, slow1 := some 9, atr0 := none }

/-- An open position whose stop price is unset (`None`), for
claim C10. -/
def c10St : StrategyState :=
  { position := true, entry_price := some 100, stop_price := none, trade_count := 1 }

/-- A bar with no trend reversal and a close that has fallen very far
(-1000), for claim C10. -/
def c10Bar : BarInputs :=
  { fast0 := 10, fast1 := 10, slow0 := 9, slow1 := 9, atr0 := 2, close := -1000,
    portfolio_value := 100000 }

/-- Claim C1: on a bar processed with no open position, an EnterLong
decision is emitted if and only if fastAvg[t] > slowAvg[t],
fastAvg[t-1] <= slowAvg[t-1], and the computed size is at least 1; in
particular no entry is emitted when the fast average was already
strictly above the slow average on the previous bar. -/
theorem t_entry_iff (st : StrategyState) (b : BarInputs)
    (hflat : st.position = false) :
    (∃ st' n, next defaultParams st b = Except.ok (st', some (Decision.enterLong n))) ↔
      (b.fast0 > b.slow0 ∧ b.fast1 ≤ b.slow1 ∧
        1 ≤ pyInt (b.portfolio_value * defaultParams.position_pct / b.close)) := by
  simp only [next, hflat, Bool.false_eq_true, if_false]
  by_cases hc : b.fast0 > b.slow0 ∧ b.fast1 ≤ b.slow1
  · rw [if_pos hc]
    by_cases hz : b.close = 0
    · rw [if_pos hz]
      constructor
      · rintro ⟨st', n, h⟩
        exact absurd h (by simp)
      · rintro ⟨-, -, h3⟩
        rw [hz] at h3
        norm_num [pyInt] at h3
    · rw [if_neg hz]
      by_cases hsz : 1 ≤ pyInt (b.portfolio_value * defaultParams.position_pct / b.close)
      · rw [if_pos hsz]
        exact ⟨fun _ => ⟨hc.1, hc.2, hsz⟩, fun _ => ⟨_, _, rfl⟩⟩
      · rw [if_neg hsz]
        constructor
        · rintro ⟨st', n, h⟩
          exact absurd h (by simp)
        · rintro ⟨-, -, h3⟩
          exact absurd h3 hsz
  · rw [if_neg hc]
    constructor
    · rintro ⟨st', n, h⟩
      exact absurd h (by simp)
    · rintro ⟨h1, h2, -⟩
      exact absurd ⟨h1, h2⟩ hc

/-- Witness for C1: on the concrete golden-cross bar `c1Bar` from the
flat initial state, the equivalence holds. -/
theorem t_entry_iff_witness :
    initState.position = false ∧
    ((∃ st' n, next defaultParams initState c1Bar = Except.ok (st', some (Decision.enterLong n))) ↔
      (c1Bar.fast0 > c1Bar.slow0 ∧ c1Bar.fast1 ≤ c1Bar.slow1 ∧
        1 ≤ pyInt (c1Bar.portfolio_value * defaultParams.position_pct / c1Bar.close))) :=
  ⟨rfl, t_entry_iff initState c1Bar rfl⟩

/-- Claim C2: while a position is open, when both the trend-reversal
condition (fastAvg[t] < slowAvg[t]) and the stop condition
(close < stopPrice) hold on the same bar, exactly one ExitPosition is
emitted and its reason is trend-reversal. -/
theorem t_exit_priority (p : Params) (st : StrategyState) (b : BarInputs) (s : ℚ)
    (hopen : st.position = true) (hstop : st.stop_price = some s)
    (hbelow : b.close < s) (htrend : b.fast0 < b.slow0) :
    next p st b = Except.ok (st, some (Decision.exitPosition ExitReason.trendReversal)) := by
  simp only [next, hopen, if_true, htrend]

/-- Witness for C2: on the concrete bar `c2Bar`, where both exit
conditions hold (fast 8 < slow 9 and close 80 < stop 84), the emitted
reason is trend-reversal. -/
theorem t_exit_priority_witness :
    (c2St.position = true ∧ c2St.stop_price = some 84 ∧ c2Bar.close < 84 ∧
      c2Bar.fast0 < c2Bar.slow0) ∧
    next defaultParams c2St c2Bar =
      Except.ok (c2St, some (Decision.exitPosition ExitReason.trendReversal)) :=
  ⟨⟨rfl, rfl, by norm_num [c2Bar], by norm_num [c2Bar]⟩,
    t_exit_priority defaultParams c2St c2Bar 84 rfl rfl (by norm_num [c2Bar])
      (by norm_num [c2Bar])⟩

/-- Counterexample to C3: on the golden-cross bar `c3Bar`, `next`
itself already writes `stop_price` (line 76 of the source runs at
decision time), so after a rejected fill — which `notify_order`
ignores — the state differs from the pre-decision state in its
`stop_price` field. -/
theorem t_stop_written_at_decision :
    next defaultParams initState c3Bar = Except.ok (c3Mid, some (Decision.enterLong 950)) ∧
    applyFill c3Mid c3Rejected = c3Mid ∧
    c3Mid.stop_price ≠ initState.stop_price := by
  refine ⟨?_, rfl, by simp [c3Mid, initState]⟩
  norm_num [next, initState, c3Bar, c3Mid, defaultParams, pyInt]

/-- Claim C3 (amended): `isOpen`, `entryPrice` and `tradeCount` are
mutated only on confirmed fills — a fill-failure report leaves the
whole state unchanged, and re-presenting the same bar to the
post-decision state yields the same EnterLong decision — but
`stopPrice` is outside this contract: it is written by the decision
step itself, at `close - atr * stopMultiplier`, before any fill
confirmation. -/
theorem t_fill_failure (p : Params) (st : StrategyState) (b : BarInputs)
    (o : Order) (st' : StrategyState) (n : ℤ)
    (hrej : o.completed = false)
    (hflat : st.position = false)
    (hnext : next p st b = Except.ok (st', some (Decision.enterLong n))) :
    applyFill st o = st ∧
    st'.position = st.position ∧ st'.entry_price = st.entry_price ∧
    st'.trade_count = st.trade_count ∧
    st'.stop_price = some (b.close - b.atr0 * p.stop_atr_multiplier) ∧
    next p st' b = Except.ok (st', some (Decision.enterLong n)) := by
  have hfill : applyFill st o = st := by
    simp [applyFill, notify_order, hrej]
  have hpos : ¬ st.position = true := by simp [hflat]
  simp only [next] at hnext
  rw [if_neg hpos] at hnext
  split_ifs at hnext with hc hz hsz
  · simp only [Except.ok.injEq, Prod.mk.injEq, Option.some.injEq,
      Decision.enterLong.injEq] at hnext
    obtain ⟨hst, hn⟩ := hnext
    subst hst
    refine ⟨hfill, rfl, rfl, rfl, rfl, ?_⟩
    simp only [next]
    rw [if_neg hpos, if_pos hc, if_neg hz, if_pos hsz, hn]
  · exact absurd hnext (by simp)
  · exact absurd hnext (by simp)

/-- Witness for the amended C3: the rejected order `c3Rejected` leaves
the post-decision state `c3Mid` unchanged, and `c3Bar` re-presented to
`c3Mid` yields the same EnterLong(950) decision. -/
theorem t_fill_failure_witness :
    (c3Rejected.completed = false ∧ initState.position = false) ∧
    (applyFill initState c3Rejected = initState ∧
      c3Mid.position = initState.position ∧ c3Mid.entry_price = initState.entry_price ∧
      c3Mid.trade_count = initState.trade_count ∧
      c3Mid.stop_price = some (c3Bar.close - c3Bar.atr0 * defaultParams.stop_atr_multiplier) ∧
      next defaultParams c3Mid c3Bar = Except.ok (c3Mid, some (Decision.enterLong 950))) :=
  ⟨⟨rfl, rfl⟩,
    t_fill_failure defaultParams initState c3Bar c3Rejected c3Mid 950 rfl rfl
      (by norm_num [next, initState, c3Bar, c3Mid, defaultParams, pyInt])⟩

/-- Counterexample to C4: after the confirmed exit fill `c4Sell` from
the open state `c4St`, the position is closed and `entry_price` is
cleared, but `stop_price` still holds 84 — it is not reset to `None`. -/
theorem t_exit_fill_keeps_stop :
    (applyFill c4St c4Sell).position = false ∧
    (applyFill c4St c4Sell).entry_price = none ∧
    (applyFill c4St c4Sell).stop_price = some 84 ∧
    ¬ (applyFill c4St c4Sell).stop_price = none := by
  refine ⟨rfl, rfl, rfl, by simp [applyFill, notify_order, c4St, c4Sell]⟩

/-- Claim C4 (amended): after a confirmed exit fill the state
satisfies isOpen = false and entryPrice = None, but stopPrice (and
tradeCount) retain their previous values — `notify_order` clears only
`entry_price` on a sell. -/
theorem t_exit_fill (st : StrategyState) (o : Order)
    (hc : o.completed = true) (hs : o.isbuy = false) :
    applyFill st o = { st with position := false, entry_price := none } := by
  simp [applyFill, notify_order, hc, hs]

/-- Witness for the amended C4: applied to the concrete exit fill
`c4Sell` on `c4St`. -/
theorem t_exit_fill_witness :
    (c4Sell.completed = true ∧ c4Sell.isbuy = false) ∧
    applyFill c4St c4Sell = { c4St with position := false, entry_price := none } :=
  ⟨⟨rfl, rfl⟩, t_exit_fill c4St c4Sell rfl rfl⟩

/-- Claim C5: on an entry whose size is at least 1, the stop price is
computed as close - volatilityRange * stopMultiplier; and on a later
bar with the position open, no trend reversal, and a (positive) close
below the stored stop, the controller emits ExitPosition with reason
stop-loss. -/
theorem t_stop_computation (st st2 : StrategyState) (b b2 : BarInputs) (s : ℚ)
    (hflat : st.position = false)
    (hcross0 : b.fast0 > b.slow0) (hcross1 : b.fast1 ≤ b.slow1)
    (hz : ¬ b.close = 0)
    (hsz : 1 ≤ pyInt (b.portfolio_value * defaultParams.position_pct / b.close))
    (hopen : st2.position = true) (hstop : st2.stop_price = some s)
    (hnorev : ¬ b2.fast0 < b2.slow0)
    (hposq : 0 < b2.close) (hbelow : b2.close < s) :
    next defaultParams st b = Except.ok ({ st with stop_price := some (b.close - b.atr0 * defaultParams.stop_atr_multiplier) }, some (Decision.enterLong (pyInt (b.portfolio_value * defaultParams.position_pct / b.close)))) ∧
    next defaultParams st2 b2 = Except.ok (st2, some (Decision.exitPosition ExitReason.stopLoss)) := by
  constructor
  · simp only [next, hflat, Bool.false_eq_true, if_false]
    rw [if_pos ⟨hcross0, hcross1⟩, if_neg hz, if_pos hsz]
  · have hs0 : ¬ s = 0 := (lt_trans hposq hbelow).ne'
    simp only [next, hopen, if_true]
    rw [if_neg hnorev]
    simp [stopHit, hstop, hs0, hbelow]

/-- Witness for C5 on the numbers of the spec: entry at close 100 with
ATR 2 and stop multiplier 8 yields stop price 84 = 100 - 16, and the
later bar with close 83.99 emits ExitPosition stop-loss. -/
theorem t_stop_computation_witness :
    (initState.position = false ∧ c5OpenSt.position = true ∧
      c5OpenSt.stop_price = some 84 ∧ c5StopBar.close < 84) ∧
    (next defaultParams initState c5EntryBar = Except.ok ({ initState with stop_price := some (c5EntryBar.close - c5EntryBar.atr0 * defaultParams.stop_atr_multiplier) }, some (Decision.enterLong (pyInt (c5EntryBar.portfolio_value * defaultParams.position_pct / c5EntryBar.close)))) ∧
      next defaultParams c5OpenSt c5StopBar =
        Except.ok (c5OpenSt, some (Decision.exitPosition ExitReason.stopLoss))) :=
  ⟨⟨rfl, rfl, rfl, by norm_num [c5StopBar]⟩,
    t_stop_computation initState c5OpenSt c5EntryBar c5StopBar 84 rfl
      (by norm_num [c5EntryBar]) (by norm_num [c5EntryBar]) (by norm_num [c5EntryBar])
      (by norm_num [c5EntryBar, defaultParams, pyInt]) rfl rfl
      (by norm_num [c5StopBar]) (by norm_num [c5StopBar]) (by norm_num [c5StopBar])⟩

/-- Claim C6: whenever an EnterLong decision is emitted, its size is
exactly floor(portfolioValue * positionFraction / close) — Python
`int()` truncation agrees with the floor because an emitted size is at
least 1, hence the quotient is positive; and on the concrete C6 bar
(portfolio 100000, fraction 0.95, close 123.45) the emitted decision
is EnterLong 769. -/
theorem t_size_floor (st : StrategyState) (b : BarInputs) (st' : StrategyState) (n : ℤ)
    (hflat : st.position = false)
    (hnext : next defaultParams st b = Except.ok (st', some (Decision.enterLong n))) :
    n = ⌊b.portfolio_value * defaultParams.position_pct / b.close⌋ ∧
    next defaultParams initState c6Bar = Except.ok ({ initState with stop_price := some (10745/100) }, some (Decision.enterLong 769)) := by
  constructor
  · have hpos : ¬ st.position = true := by simp [hflat]
    simp only [next] at hnext
    rw [if_neg hpos] at hnext
    split_ifs at hnext with hc hz hsz
    · simp only [Except.ok.injEq, Prod.mk.injEq, Option.some.injEq,
        Decision.enterLong.injEq] at hnext
      obtain ⟨-, hn⟩ := hnext
      rw [← hn]
      rw [pyInt] at hsz ⊢
      split at hsz
      · rw [if_pos (by assumption)]
      · exfalso
        have hq : b.portfolio_value * defaultParams.position_pct / b.close ≤ 0 :=
          le_of_not_le (by assumption)
        have hce : ⌈b.portfolio_value * defaultParams.position_pct / b.close⌉ ≤ 0 := by
          rw [Int.ceil_le]
          exact_mod_cast hq
        omega
    · exact absurd hnext (by simp)
    · exact absurd hnext (by simp)
  · norm_num [next, initState, c6Bar, defaultParams, pyInt]

/-- Witness for C6: on `c6Bar` the emitted size 769 equals the floor
of 100000 * 0.95 / 123.45, and the full decision is EnterLong 769. -/
theorem t_size_floor_witness :
    (initState.position = false ∧
      769 = ⌊c6Bar.portfolio_value * defaultParams.position_pct / c6Bar.close⌋) ∧
    next defaultParams initState c6Bar = Except.ok ({ initState with stop_price := some (10745/100) }, some (Decision.enterLong 769)) :=
  ⟨⟨rfl,
      (t_size_floor initState c6Bar { initState with stop_price := some (10745/100) } 769 rfl
        (by norm_num [next, initState, c6Bar, defaultParams, pyInt])).1⟩,
    (t_size_floor initState c6Bar { initState with stop_price := some (10745/100) } 769 rfl
      (by norm_num [next, initState, c6Bar, defaultParams, pyInt])).2⟩

/-- Claim C7: on a bar where the golden-cross condition holds but
floor(portfolioValue * positionFraction / close) = 0 (for a nonzero
close), the controller emits no decision and performs no state
mutation — in particular `stop_price` is not written. -/
theorem t_degenerate_size (st : StrategyState) (b : BarInputs)
    (hflat : st.position = false)
    (hcross0 : b.fast0 > b.slow0) (hcross1 : b.fast1 ≤ b.slow1)
    (hz : ¬ b.close = 0)
    (hfl : ⌊b.portfolio_value * defaultParams.position_pct / b.close⌋ = 0) :
    next defaultParams st b = Except.ok (st, none) := by
  have h0 : (0:ℚ) ≤ b.portfolio_value * defaultParams.position_pct / b.close :=
    Int.floor_nonneg.mp (by rw [hfl])
  have hsz : ¬ 1 ≤ pyInt (b.portfolio_value * defaultParams.position_pct / b.close) := by
    rw [pyInt, if_pos h0, hfl]
    norm_num
  have hpos : ¬ st.position = true := by simp [hflat]
  simp only [next]
  rw [if_neg hpos, if_pos ⟨hcross0, hcross1⟩, if_neg hz, if_neg hsz]

/-- Witness for C7: on `c7Bar` (close 1000000, portfolio 100000) the
size floors to 0 and the controller is a silent no-op. -/
theorem t_degenerate_size_witness :
    (initState.position = false ∧ c7Bar.fast0 > c7Bar.slow0 ∧ c7Bar.fast1 ≤ c7Bar.slow1 ∧
      ⌊c7Bar.portfolio_value * defaultParams.position_pct / c7Bar.close⌋ = 0) ∧
    next defaultParams initState c7Bar = Except.ok (initState, none) :=
  ⟨⟨rfl, by norm_num [c7Bar], by norm_num [c7Bar],
      by norm_num [c7Bar, defaultParams]⟩,
    t_degenerate_size initState c7Bar rfl (by norm_num [c7Bar]) (by norm_num [c7Bar])
      (by norm_num [c7Bar]) (by norm_num [c7Bar, defaultParams])⟩

/-- Counterexample to C8: the bar `c8Bar` has the malformed close -1,
yet with an open position and the stop 50 set the controller emits
ExitPosition stop-loss rather than NoAction. -/
theorem t_negative_close_not_skipped :
    c8Bar.close < 0 ∧
    next defaultParams c8St c8Bar =
      Except.ok (c8St, some (Decision.exitPosition ExitReason.stopLoss)) := by
  constructor
  · norm_num [c8Bar]
  · norm_num [next, c8St, c8Bar, stopHit, defaultParams]

/-- Claim C8 (amended): the controller has no malformed-input guard:
a non-positive close is processed like any other price, so while a
position is open with a nonzero stop above the close and no trend
reversal, a bar with close ≤ 0 emits ExitPosition stop-loss rather
than NoAction; and with no position open, a golden-cross bar with
close = 0 raises ZeroDivisionError in the size computation rather than
returning NoAction. -/
theorem t_no_malformed_guard (st st2 : StrategyState) (b b2 : BarInputs) (s : ℚ)
    (hopen : st.position = true) (hnorev : ¬ b.fast0 < b.slow0)
    (hstop : st.stop_price = some s) (hs0 : ¬ s = 0)
    (hneg : b.close ≤ 0) (hlt : b.close < s)
    (hflat : st2.position = false)
    (hcross0 : b2.fast0 > b2.slow0) (hcross1 : b2.fast1 ≤ b2.slow1)
    (hz : b2.close = 0) :
    next defaultParams st b = Except.ok (st, some (Decision.exitPosition ExitReason.stopLoss)) ∧
    next defaultParams st2 b2 = Except.error () := by
  constructor
  · simp only [next, hopen, if_true]
    rw [if_neg hnorev]
    simp [stopHit, hstop, hs0, hlt]
  · have hpos : ¬ st2.position = true := by simp [hflat]
    simp only [next]
    rw [if_neg hpos, if_pos ⟨hcross0, hcross1⟩, if_pos hz]

/-- Witness for the amended C8: close -1 below the stop 50 emits
stop-loss, and the zero-close golden-cross bar `c8ZeroBar` raises. -/
theorem t_no_malformed_guard_witness :
    (c8St.position = true ∧ c8Bar.close ≤ 0 ∧ c8ZeroBar.close = 0 ∧
      initState.position = false) ∧
    (next defaultParams c8St c8Bar =
        Except.ok (c8St, some (Decision.exitPosition ExitReason.stopLoss)) ∧
      next defaultParams initState c8ZeroBar = Except.error ()) :=
  ⟨⟨rfl, by norm_num [c8Bar], rfl, rfl⟩,
    t_no_malformed_guard c8St initState c8Bar c8ZeroBar 50 rfl (by norm_num [c8Bar]) rfl
      (by norm_num) (by norm_num [c8Bar]) (by norm_num [c8Bar]) rfl
      (by norm_num [c8ZeroBar]) (by norm_num [c8ZeroBar]) rfl⟩

/-- Claim C9: on a bar at which any of fastAvg (current or previous),
slowAvg (current or previous) or volatilityRange is still undefined
(warm-up), the per-bar operation returns no decision and leaves every
field of the state unchanged. -/
theorem t_cold_start (p : Params) (st : StrategyState) (snap : Snapshot) (close pv : ℚ)
    (h : snap.fast0 = none ∨ snap.fast1 = none ∨ snap.slow0 = none ∨
      snap.slow1 = none ∨ snap.atr0 = none) :
    onBar p st snap close pv = Except.ok (st, none) := by
  obtain ⟨f0, f1, s0, s1, a0⟩ := snap
  simp only at h
  unfold onBar
  rcases h with h | h | h | h | h <;>
    cases f0 <;> cases f1 <;> cases s0 <;> cases s1 <;> cases a0 <;>
      first
        | rfl
        | exact absurd h (by simp)

/-- Witness for C9: the snapshot `c9Snap`, whose ATR is undefined,
produces no decision and no state change. -/
theorem t_cold_start_witness :
    c9Snap.atr0 = none ∧
    onBar defaultParams initState c9Snap 100 100000 = Except.ok (initState, none) :=
  ⟨rfl, t_cold_start defaultParams initState c9Snap 100 100000
    (Or.inr (Or.inr (Or.inr (Or.inr rfl))))⟩

/-- Claim C10: while a position is open with a falsy stop price
(`None` or exactly 0.0), the stop-loss branch is skipped no matter how
low the close falls; the bar either emits the trend-reversal exit (if
fastAvg[t] < slowAvg[t]) or nothing at all. -/
theorem t_stop_falsy (p : Params) (st : StrategyState) (b : BarInputs)
    (hopen : st.position = true)
    (h : st.stop_price = none ∨ st.stop_price = some 0) :
    next p st b =
      Except.ok (st,
        if b.fast0 < b.slow0 then some (Decision.exitPosition ExitReason.trendReversal)
        else none) := by
  rcases h with h | h <;> simp only [next, hopen, if_true, stopHit, h] <;>
    split <;> simp

/-- Witness for C10: with an unset stop price and a close of -1000,
no stop-loss exit is emitted. -/
theorem t_stop_falsy_witness :
    (c10St.position = true ∧ c10St.stop_price = none) ∧
    next defaultParams c10St c10Bar =
      Except.ok (c10St,
        if c10Bar.fast0 < c10Bar.slow0 then some (Decision.exitPosition ExitReason.trendReversal)
        else none) :=
  ⟨⟨rfl, rfl⟩, t_stop_falsy defaultParams c10St c10Bar rfl (Or.inl rfl)⟩

end Atom
